import Mathlib

/-!
Verification of the Compliance Risk & Audit Engine of the
KYC-AML-Compliance-Assistant-RAG repository.

The Python modules `risk_scoring.py`, `audit_logger.py`,
`compliance_dashboard.py` and `performance_monitor.py` are shallowly
embedded below: dictionaries with optional keys become structures with
`Option` fields, `dict.get(k, d)` becomes `Option.getD`, the current
wall-clock time (`datetime.now()`) becomes an explicit `now` argument,
file-backed JSONL log partitions become an `Option (List (Line E))`
state (`none` = missing file; a `Line` is either a decoded record or a
malformed line), Python numbers become `ℚ`/`ℤ`/`ℕ`, `round(x, n)`
becomes round-half-even over `ℚ`, and `hashlib.md5` is embedded as the
RFC 1321 digest over byte lists.
-/

set_option maxRecDepth 8000

namespace KycAml

/-! ## risk_scoring.py : rule tables -/

/-- The `HIGH_RISK_COUNTRIES` table (risk_scoring.py lines 12-15). -/
def HIGH_RISK_COUNTRIES : List String :=
  ["Afghanistan", "Iran", "North Korea", "Syria", "Yemen",
   "Myanmar", "Cuba", "Sudan", "Venezuela"]

/-- The `HIGH_RISK_KEYWORDS` table (risk_scoring.py lines 18-22). -/
def HIGH_RISK_KEYWORDS : List String :=
  ["sanction", "terrorist", "terrorism", "fraud", "laundering",
   "money laundering", "shell company", "offshore", "pep",
   "politically exposed", "blacklist", "watchlist"]

/-- The `MEDIUM_RISK_KEYWORDS` table (risk_scoring.py lines 24-27). -/
def MEDIUM_RISK_KEYWORDS : List String :=
  ["cash", "cryptocurrency", "bitcoin", "anonymous", "bearer",
   "structuring", "smurfing", "layering", "placement"]

/-! ## risk_scoring.py : calculate_transaction_risk -/

/-- The `transaction_data` dict: every key is optional and `dict.get`
defaults apply (amount 0, count_24h 0, country empty, is_cash False,
customer_type None). -/
structure Transaction where
  amount : Option ℚ
  currency : Option String
  country : Option String
  count_24h : Option ℤ
  customer_type : Option String
  is_cash : Option Bool
deriving DecidableEq

/-- One flag string appended by `calculate_transaction_risk`, with the
interpolated values carried as payload. -/
inductive Flag where
  | highValue (amount : ℚ)
  | mediumValue (amount : ℚ)
  | veryHighVelocity (n : ℤ)
  | highVelocity (n : ℤ)
  | highRiskJurisdiction (country : String)
  | cashTransaction
  | unusualSmallCorporate
deriving DecidableEq

/-- The dict returned by `calculate_transaction_risk`
(risk_scoring.py lines 98-104). -/
structure RiskAssessment where
  risk_score : ℕ
  risk_level : String
  flags : List Flag
  recommended_action : String
  timestamp : String
deriving DecidableEq

/-- Amount rule score (risk_scoring.py lines 50-56). -/
def amountScore (a : ℚ) : ℕ :=
  if 50000 ≤ a then 35 else if 10000 ≤ a then 20 else 0

/-- Amount rule flag (risk_scoring.py lines 50-56). -/
def amountFlags (a : ℚ) : List Flag :=
  if 50000 ≤ a then [Flag.highValue a]
  else if 10000 ≤ a then [Flag.mediumValue a] else []

/-- Velocity rule score (risk_scoring.py lines 59-65). -/
def velocityScore (n : ℤ) : ℕ :=
  if 20 < n then 30 else if 10 < n then 15 else 0

/-- Velocity rule flag (risk_scoring.py lines 59-65). -/
def velocityFlags (n : ℤ) : List Flag :=
  if 20 < n then [Flag.veryHighVelocity n]
  else if 10 < n then [Flag.highVelocity n] else []

/-- Geographic rule score (risk_scoring.py lines 68-71). -/
def geoScore (c : String) : ℕ :=
  if c ∈ HIGH_RISK_COUNTRIES then 25 else 0

/-- Geographic rule flag (risk_scoring.py lines 68-71). -/
def geoFlags (c : String) : List Flag :=
  if c ∈ HIGH_RISK_COUNTRIES then [Flag.highRiskJurisdiction c] else []

/-- Cash rule score (risk_scoring.py lines 74-76). -/
def cashScore (b : Bool) : ℕ := if b then 15 else 0

/-- Cash rule flag (risk_scoring.py lines 74-76). -/
def cashFlags (b : Bool) : List Flag :=
  if b then [Flag.cashTransaction] else []

/-- Corporate rule score (risk_scoring.py lines 79-82): customer type
`'corporate'` and amount below 1000. -/
def corpScore (ct : Option String) (a : ℚ) : ℕ :=
  if ct = some "corporate" ∧ a < 1000 then 10 else 0

/-- Corporate rule flag (risk_scoring.py lines 79-82). -/
def corpFlags (ct : Option String) (a : ℚ) : List Flag :=
  if ct = some "corporate" ∧ a < 1000 then [Flag.unusualSmallCorporate] else []

/-- Function `calculate_transaction_risk` (risk_scoring.py lines 30-104).
`now` stands for `datetime.now().isoformat()` at call time. -/
def calculate_transaction_risk (t : Transaction) (now : String) :
    RiskAssessment :=
  let amount := t.amount.getD 0
  let cnt := t.count_24h.getD 0
  let country := t.country.getD ""
  let cash := t.is_cash.getD false
  let score := min (amountScore amount + velocityScore cnt + geoScore country
    + cashScore cash + corpScore t.customer_type amount) 100
  let flags := amountFlags amount ++ velocityFlags cnt ++ geoFlags country
    ++ cashFlags cash ++ corpFlags t.customer_type amount
  if 70 ≤ score then
    ⟨score, "HIGH", flags, "Enhanced Due Diligence Required", now⟩
  else if 40 ≤ score then
    ⟨score, "MEDIUM", flags, "Standard Due Diligence Required", now⟩
  else
    ⟨score, "LOW", flags, "Normal Processing", now⟩

/-- The scenario transaction of the spec:
amount 55000 USD from Iran, 15 transactions in 24h, individual, cash. -/
def iranTx : Transaction :=
  ⟨some 55000, some "USD", some "Iran", some 15, some "individual", some true⟩

/-! ## risk_scoring.py : analyze_query_risk -/

/-- Whether `needle` occurs at the head of `hay`. -/
def leadMatch : List Char → List Char → Bool
  | [], _ => true
  | _ :: _, [] => false
  | a :: as, b :: bs => a == b && leadMatch as bs

/-- Python's `needle in hay` substring test on character lists. -/
def hasSub (needle : List Char) : List Char → Bool
  | [] => leadMatch needle []
  | b :: bs => leadMatch needle (b :: bs) || hasSub needle bs

/-- ASCII lowering of one character, as `str.lower()` acts on ASCII. -/
def lowerChar (c : Char) : Char :=
  if 'A' ≤ c ∧ c ≤ 'Z' then Char.ofNat (c.toNat + 32) else c

/-- Python `query.lower()` as a character list. -/
def strLower (s : String) : List Char := s.toList.map lowerChar

/-- Python `keyword in query_lower`. -/
def kwIn (kw : String) (ql : List Char) : Bool := hasSub kw.toList ql

/-- The dict returned by `analyze_query_risk`
(risk_scoring.py lines 151-157). -/
structure QueryRisk where
  risk_score : ℕ
  risk_level : String
  flags : List String
  keywords_found : List String
  requires_alert : Bool
deriving DecidableEq

/-- Function `analyze_query_risk` (risk_scoring.py lines 107-157): each keyword of
the high tier found in the lowercased query adds 15, each of the medium
tier adds 8, the sum is capped at 100. -/
def analyze_query_risk (query : String) : QueryRisk :=
  let ql := strLower query
  let highFound := HIGH_RISK_KEYWORDS.filter (fun kw => kwIn kw ql)
  let medFound := MEDIUM_RISK_KEYWORDS.filter (fun kw => kwIn kw ql)
  let keywords_found := highFound ++ medFound
  let score := min (15 * highFound.length + 8 * medFound.length) 100
  let flags := if keywords_found.isEmpty then ([] : List String)
    else ["Risk keywords detected: " ++ String.intercalate ", " keywords_found]
  if 50 ≤ score then ⟨score, "HIGH", flags, keywords_found, true⟩
  else if 25 ≤ score then ⟨score, "MEDIUM", flags, keywords_found, false⟩
  else ⟨score, "LOW", flags, keywords_found, false⟩

/-- The scenario query of the spec. -/
def scenarioQuery : String :=
  "What are the requirements for terrorist financing detection?"

/-! ## audit_logger.py : log partitions -/

/-- One line of a JSONL log partition: either a line that decodes to a
record of type `E`, or a malformed line that `json.loads` rejects. -/
inductive Line (E : Type) where
  | valid (e : E)
  | malformed
deriving DecidableEq

/-- A log partition on disk: `none` is a missing file. -/
def FileState (E : Type) : Type := Option (List (Line E))

/-- The records of the well-formed lines, in file order. -/
def extractValid {E : Type} (lines : List (Line E)) : List E :=
  lines.filterMap (fun | .valid e => some e | .malformed => none)

/-- Method `AuditLogger._write_log` (audit_logger.py lines 210-213): open in
append mode (creating a missing file) and add one serialized record. -/
def write_log {E : Type} (f : FileState E) (e : E) : FileState E :=
  some ((f.getD []) ++ [Line.valid e])

/-- Append a record sequence left to right. -/
def writeAll {E : Type} (f : FileState E) (rs : List E) : FileState E :=
  rs.foldl write_log f

/-- The user filter of `_read_log`: `user_id is None or
entry.get('user_id') == user_id`. -/
def matchesUser {E : Type} (userOf : E → Option String)
    (user_id : Option String) (e : E) : Bool :=
  match user_id with
  | none => true
  | some u => userOf e == some u

/-- Method `AuditLogger._read_log` (audit_logger.py lines 215-236): a missing
file reads as empty; malformed lines are skipped; an optional user
filter applies; `entries[-limit:]` keeps the last `limit` entries
(all of them when `limit` is 0, as in Python). -/
def read_log {E : Type} (f : FileState E) (userOf : E → Option String)
    (user_id : Option String) (limit : ℕ) : List E :=
  match f with
  | none => []
  | some lines =>
    let entries := (extractValid lines).filter (matchesUser userOf user_id)
    if limit = 0 then entries else entries.drop (entries.length - limit)

/-! ## hashlib.md5, as used by AuditLogger._generate_id -/

namespace MD5

/-- Addition modulo `2^32`. -/
def add32 (a b : ℕ) : ℕ := (a + b) % 4294967296

/-- Left rotation of a 32-bit word. -/
def rotl32 (x s : ℕ) : ℕ := ((x <<< s) % 4294967296) ||| (x >>> (32 - s))

/-- Round function F. -/
def auxF (b c d : ℕ) : ℕ := (b &&& c) ||| ((b ^^^ 4294967295) &&& d)

/-- Round function G. -/
def auxG (b c d : ℕ) : ℕ := (b &&& d) ||| (c &&& (d ^^^ 4294967295))

/-- Round function H. -/
def auxH (b c d : ℕ) : ℕ := b ^^^ c ^^^ d

/-- Round function I. -/
def auxI (b c d : ℕ) : ℕ := c ^^^ (b ||| (d ^^^ 4294967295))

/-- The 64 sine-derived constants of RFC 1321. -/
def kTable : List ℕ :=
  [0xd76aa478, 0xe8c7b756, 0x242070db, 0xc1bdceee,
   0xf57c0faf, 0x4787c62a, 0xa8304613, 0xfd469501,
   0x698098d8, 0x8b44f7af, 0xffff5bb1, 0x895cd7be,
   0x6b901122, 0xfd987193, 0xa679438e, 0x49b40821,
   0xf61e2562, 0xc040b340, 0x265e5a51, 0xe9b6c7aa,
   0xd62f105d, 0x02441453, 0xd8a1e681, 0xe7d3fbc8,
   0x21e1cde6, 0xc33707d6, 0xf4d50d87, 0x455a14ed,
   0xa9e3e905, 0xfcefa3f8, 0x676f02d9, 0x8d2a4c8a,
   0xfffa3942, 0x8771f681, 0x6d9d6122, 0xfde5380c,
   0xa4beea44, 0x4bdecfa9, 0xf6bb4b60, 0xbebfbc70,
   0x289b7ec6, 0xeaa127fa, 0xd4ef3085, 0x04881d05,
   0xd9d4d039, 0xe6db99e5, 0x1fa27cf8, 0xc4ac5665,
   0xf4292244, 0x432aff97, 0xab9423a7, 0xfc93a039,
   0x655b59c3, 0x8f0ccc92, 0xffeff47d, 0x85845dd1,
   0x6fa87e4f, 0xfe2ce6e0, 0xa3014314, 0x4e0811a1,
   0xf7537e82, 0xbd3af235, 0x2ad7d2bb, 0xeb86d391]

/-- The 64 per-step rotation amounts of RFC 1321. -/
def sTable : List ℕ :=
  [7, 12, 17, 22, 7, 12, 17, 22, 7, 12, 17, 22, 7, 12, 17, 22,
   5, 9, 14, 20, 5, 9, 14, 20, 5, 9, 14, 20, 5, 9, 14, 20,
   4, 11, 16, 23, 4, 11, 16, 23, 4, 11, 16, 23, 4, 11, 16, 23,
   6, 10, 15, 21, 6, 10, 15, 21, 6, 10, 15, 21, 6, 10, 15, 21]

/-- Pad a byte message: `0x80`, zeros to 56 mod 64, then the bit length
as 8 little-endian bytes. -/
def padMessage (msg : List ℕ) : List ℕ :=
  let len := msg.length
  let zeros := (120 - ((len + 1) % 64)) % 64
  msg ++ [128] ++ List.replicate zeros 0
    ++ (List.range 8).map (fun i => ((8 * len) / 2 ^ (8 * i)) % 256)

/-- Decode a 64-byte block as 16 little-endian 32-bit words. -/
def toWords (block : List ℕ) : List ℕ :=
  (List.range 16).map (fun j =>
    block.getD (4 * j) 0 + 256 * block.getD (4 * j + 1) 0
      + 65536 * block.getD (4 * j + 2) 0 + 16777216 * block.getD (4 * j + 3) 0)

/-- One of the 64 steps of an MD5 block computation. -/
def step (m : List ℕ) (st : ℕ × ℕ × ℕ × ℕ) (i : ℕ) : ℕ × ℕ × ℕ × ℕ :=
  let a := st.1
  let b := st.2.1
  let c := st.2.2.1
  let d := st.2.2.2
  let f := if i < 16 then auxF b c d else if i < 32 then auxG b c d
    else if i < 48 then auxH b c d else auxI b c d
  let g := if i < 16 then i else if i < 32 then (5 * i + 1) % 16
    else if i < 48 then (3 * i + 5) % 16 else (7 * i) % 16
  let bb := add32 b (rotl32 (add32 (add32 (add32 a f) (kTable.getD i 0))
    (m.getD g 0)) (sTable.getD i 0))
  (d, bb, b, c)

/-- Process one 64-byte block. -/
def processBlock (st : ℕ × ℕ × ℕ × ℕ) (block : List ℕ) : ℕ × ℕ × ℕ × ℕ :=
  let m := toWords block
  let r := (List.range 64).foldl (step m) st
  (add32 st.1 r.1, add32 st.2.1 r.2.1, add32 st.2.2.1 r.2.2.1,
    add32 st.2.2.2 r.2.2.2)

/-- Split a padded message into 64-byte blocks. -/
def toBlocks (l : List ℕ) : List (List ℕ) :=
  if l.isEmpty then [] else l.take 64 :: toBlocks (l.drop 64)
termination_by l.length
decreasing_by
  rename_i h
  have hl : 0 < l.length := by
    cases l with
    | nil => exact absurd rfl h
    | cons a as => simp
  simp only [List.length_drop]
  omega

/-- The 16-byte MD5 digest of a byte message. -/
def md5 (msg : List ℕ) : List ℕ :=
  let init : ℕ × ℕ × ℕ × ℕ := (0x67452301, 0xefcdab89, 0x98badcfe, 0x10325476)
  let r := (toBlocks (padMessage msg)).foldl processBlock init
  [r.1, r.2.1, r.2.2.1, r.2.2.2].flatMap
    (fun w => (List.range 4).map (fun i => (w / 2 ^ (8 * i)) % 256))

end MD5

/-- The value carried by the first 12 hex characters of
`hashlib.md5(content).hexdigest()`: the first 6 digest bytes, packed
big-end first as in the hex rendering. -/
def idNum (input : List ℕ) : Fin (2 ^ 48) :=
  ⟨((MD5.md5 input).take 6).foldl (fun acc b => acc * 256 + b % 256) 0
      % 2 ^ 48,
    Nat.mod_lt _ (by norm_num)⟩

/-- One lowercase hex digit. -/
def hexDigit (n : ℕ) : Char :=
  if n < 10 then Char.ofNat (48 + n) else Char.ofNat (87 + n % 16)

/-- Method `AuditLogger._generate_id` (audit_logger.py lines 205-208): the
first 12 characters of the MD5 hex digest of the hashed input bytes. -/
def generate_id (input : List ℕ) : String :=
  String.mk ((List.range 12).map
    (fun k => hexDigit ((idNum input).val / 16 ^ (11 - k) % 16)))

/-- The byte string `_generate_id` hashes: the concatenated stringified
arguments followed by the bytes of `str(datetime.now())`. -/
def md5_input (content ts : List ℕ) : List ℕ := content ++ ts

/-- UTF-8 bytes of a string. -/
def strBytes (s : String) : List ℕ := s.toUTF8.toList.map (fun b => b.toNat)

/-- A concrete `str(datetime.now())` timestamp salt. -/
def ts0 : List ℕ := strBytes "2024-01-01 00:00:00.000000"

/-! ## audit_logger.py : log_query -/

/-- One element of the `sources` argument of `log_query`: a dict whose
`filename` key may be missing. -/
structure Source where
  filename : Option String
deriving DecidableEq

/-- The record `log_query` persists (audit_logger.py lines 44-56). -/
structure QueryLogEntry where
  query_id : String
  timestamp : String
  user_id : String
  query : String
  answer_preview : String
  answer_length : ℕ
  sources_used : List String
  source_count : ℕ
  confidence_score : ℚ
  risk_score : ℤ
  metadata : List (String × String)
deriving DecidableEq

/-- Python `answer[:200] + "..." if len(answer) > 200 else answer`
(audit_logger.py line 49). -/
def answerPreview (answer : String) : String :=
  if 200 < answer.length then String.mk (answer.toList.take 200) ++ "..."
  else answer

/-- Method `AuditLogger.log_query` (audit_logger.py lines 26-59), returning the
record it appends.  `now` is `datetime.now().isoformat()`, `nowSalt` the
`str(datetime.now())` salt inside `_generate_id`. -/
def log_query (user_id query answer : String) (sources : List Source)
    (confidence : ℚ) (risk_score : ℤ)
    (metadata : Option (List (String × String))) (now nowSalt : String) :
    QueryLogEntry :=
  { query_id := generate_id (strBytes (query ++ user_id ++ nowSalt))
    timestamp := now
    user_id := user_id
    query := query
    answer_preview := answerPreview answer
    answer_length := answer.length
    sources_used := sources.map (fun s => s.filename.getD "Unknown")
    source_count := sources.length
    confidence_score := confidence
    risk_score := risk_score
    metadata := metadata.getD [] }

/-! ## audit_logger.py : export_audit_trail -/

/-- The four partitions of an `AuditLogger`, with the user-identifier
projection used by the read filter. -/
structure AuditState (J : Type) where
  getUser : J → Option String
  query_log : FileState J
  access_log : FileState J
  alert_log : FileState J
  document_log : FileState J

/-- The consolidated export document (audit_logger.py lines 188-198). -/
structure ExportData (J : Type) where
  export_timestamp : String
  date_range_start : Option String
  date_range_end : Option String
  queries : List J
  access_logs : List J
  alerts : List J
  documents : List J

/-- Method `AuditLogger.export_audit_trail` (audit_logger.py lines 175-203):
bundles the four partitions as read by `_read_log` with its default
`limit = 100` and no user filter, and records the date parameters
without applying them. -/
def export_audit_trail {J : Type} (st : AuditState J)
    (start_date end_date : Option String) (now : String) : ExportData J :=
  { export_timestamp := now
    date_range_start := start_date
    date_range_end := end_date
    queries := read_log st.query_log st.getUser none 100
    access_logs := read_log st.access_log st.getUser none 100
    alerts := read_log st.alert_log st.getUser none 100
    documents := read_log st.document_log st.getUser none 100 }

/-- A query partition holding 101 well-formed records. -/
def bigFile : FileState ℕ := some ((List.range 101).map Line.valid)

/-- An audit state whose query partition holds 101 records. -/
def bigState : AuditState ℕ := ⟨fun _ => none, bigFile, none, none, none⟩

/-! ## compliance_dashboard.py : get_compliance_score -/

/-- Python `round` to an integer: round-half-to-even. -/
def roundHE (q : ℚ) : ℤ :=
  if q - ⌊q⌋ = 1 / 2 then (if ⌊q⌋ % 2 = 0 then ⌊q⌋ else ⌊q⌋ + 1)
  else round q

/-- Python `round(q, d)`. -/
def roundTo (d : ℕ) (q : ℚ) : ℚ := (roundHE (q * 10 ^ d) : ℚ) / 10 ^ d

/-- Mean of a list, `sum(xs) / len(xs)`. -/
def avgQ (l : List ℚ) : ℚ := l.sum / l.length

/-- The dict returned by `get_compliance_score`
(compliance_dashboard.py lines 161-171). -/
structure ComplianceScore where
  overall_score : ℚ
  status : String
  status_color : String
  document_coverage : ℚ
  query_confidence : ℚ
  risk_management : ℚ
deriving DecidableEq

/-- The `score_components` list (compliance_dashboard.py lines 128-143):
the coverage component enters when the `coverage_percentage` dict is
present and truthy (non-empty), the confidence and risk components when
their keys are present in the query statistics. -/
def score_components (covPct : Option (List ℚ)) (avgConf avgRisk : Option ℚ) :
    List ℚ :=
  (match covPct with
    | some l => if l.isEmpty then [] else [avgQ l * (4 / 10)]
    | none => [])
  ++ (match avgConf with
    | some c => [c * 100 * (3 / 10)]
    | none => [])
  ++ (match avgRisk with
    | some r => [(100 - r) * (3 / 10)]
    | none => [])

/-- Method `ComplianceDashboard.get_compliance_score` (compliance_dashboard.py
lines 122-171), as a function of the upstream coverage-percentage values
and of the average confidence and risk statistics when present. -/
def get_compliance_score (covPct : Option (List ℚ))
    (avgConf avgRisk : Option ℚ) : ComplianceScore :=
  let comps := score_components covPct avgConf avgRisk
  let overall := comps.sum
  let sc : String × String :=
    if 80 ≤ overall then ("EXCELLENT", "green")
    else if 60 ≤ overall then ("GOOD", "yellow")
    else if 40 ≤ overall then ("FAIR", "orange")
    else ("NEEDS IMPROVEMENT", "red")
  { overall_score := roundTo 1 overall
    status := sc.1
    status_color := sc.2
    document_coverage := roundTo 1 (comps.getD 0 0)
    query_confidence := roundTo 1 (comps.getD 1 0)
    risk_management := roundTo 1 (comps.getD 2 0) }

/-- The overall score exactly as the spec sentence states it (for
comparison with the code): 0.4 × average coverage + 0.3 × (confidence ×
100) + 0.3 × (100 − risk), missing components omitted. -/
def claimedOverall (covPct : Option (List ℚ)) (avgConf avgRisk : Option ℚ) :
    ℚ :=
  (match covPct with
    | some l => if l.isEmpty then 0 else (4 / 10) * avgQ l
    | none => 0)
  + (match avgConf with | some c => (3 / 10) * (c * 100) | none => 0)
  + (match avgRisk with | some r => (3 / 10) * (100 - r) | none => 0)

/-! ## performance_monitor.py : percentiles -/

/-- Python `sorted(data)` in `_percentile`. -/
def sortedWindow (data : List ℚ) : List ℚ :=
  data.mergeSort (fun a b => decide (a ≤ b))

/-- Method `PerformanceMonitor._percentile` (performance_monitor.py lines
179-185): value at index `int(percentile / 100 * len)` of the ascending
sort, clamped to the last index; 0 for an empty window. -/
def percentile (data : List ℚ) (p : ℕ) : ℚ :=
  if data.isEmpty then 0
  else (sortedWindow data).getD (min (p * data.length / 100)
    (data.length - 1)) 0

/-- The reported `p95` of the query-time block of `get_metrics`
(performance_monitor.py line 80). -/
def query_time_p95 (data : List ℚ) : ℚ := roundTo 3 (percentile data 95)

/-- The reported `p99` of the query-time block of `get_metrics`
(performance_monitor.py line 81). -/
def query_time_p99 (data : List ℚ) : ℚ := roundTo 3 (percentile data 99)

/-- The scenario window of samples 1..100 seconds. -/
def oneToHundred : List ℚ := (List.range 100).map (fun i => ((i + 1 : ℕ) : ℚ))

/-! ## Helper lemmas : calculate_transaction_risk -/

theorem risk_score_eq (t : Transaction) (now : String) :
    (calculate_transaction_risk t now).risk_score
      = min (amountScore (t.amount.getD 0) + velocityScore (t.count_24h.getD 0)
          + geoScore (t.country.getD "") + cashScore (t.is_cash.getD false)
          + corpScore t.customer_type (t.amount.getD 0)) 100 := by
  dsimp only [calculate_transaction_risk]
  split_ifs <;> rfl

theorem risk_flags_eq (t : Transaction) (now : String) :
    (calculate_transaction_risk t now).flags
      = amountFlags (t.amount.getD 0) ++ velocityFlags (t.count_24h.getD 0)
        ++ geoFlags (t.country.getD "") ++ cashFlags (t.is_cash.getD false)
        ++ corpFlags t.customer_type (t.amount.getD 0) := by
  dsimp only [calculate_transaction_risk]
  split_ifs <;> rfl

theorem risk_level_high (t : Transaction) (now : String) :
    (calculate_transaction_risk t now).risk_level = "HIGH"
      ↔ 70 ≤ (calculate_transaction_risk t now).risk_score := by
  dsimp only [calculate_transaction_risk]
  split_ifs <;> simp_all

theorem risk_level_medium (t : Transaction) (now : String) :
    (calculate_transaction_risk t now).risk_level = "MEDIUM"
      ↔ (40 ≤ (calculate_transaction_risk t now).risk_score
          ∧ (calculate_transaction_risk t now).risk_score < 70) := by
  dsimp only [calculate_transaction_risk]
  split_ifs <;> simp_all <;> omega

theorem risk_level_low (t : Transaction) (now : String) :
    (calculate_transaction_risk t now).risk_level = "LOW"
      ↔ (calculate_transaction_risk t now).risk_score < 40 := by
  dsimp only [calculate_transaction_risk]
  split_ifs <;> simp_all <;> omega

theorem risk_timestamp (t : Transaction) (now : String) :
    (calculate_transaction_risk t now).timestamp = now := by
  dsimp only [calculate_transaction_risk]
  split_ifs <;> rfl

theorem risk_action (t : Transaction) (n1 n2 : String) :
    (calculate_transaction_risk t n1).recommended_action
      = (calculate_transaction_risk t n2).recommended_action := by
  dsimp only [calculate_transaction_risk]
  split_ifs <;> rfl

/-! ## Claim C1 -/

/-- C1: for every transaction input, `calculate_transaction_risk` scores
the clamped-to-100 sum of exactly the five rule contributions (35/20 for
amount, 30/15 for velocity, 25 for a high-risk country, 15 for cash, 10
for a small corporate transaction), the score lies in [0,100], the level
is HIGH iff score ≥ 70, MEDIUM iff 40 ≤ score < 70, LOW iff score < 40,
the flags appear in rule-evaluation order, and the Iran scenario yields
score 90 with level HIGH. -/
theorem C1_calculate_transaction_risk (t : Transaction) (now : String) :
    (calculate_transaction_risk t now).risk_score
      = min ((if 50000 ≤ t.amount.getD 0 then 35
            else if 10000 ≤ t.amount.getD 0 then 20 else 0)
          + (if 20 < t.count_24h.getD 0 then 30
            else if 10 < t.count_24h.getD 0 then 15 else 0)
          + (if t.country.getD "" ∈ HIGH_RISK_COUNTRIES then 25 else 0)
          + (if t.is_cash.getD false then 15 else 0)
          + (if t.customer_type = some "corporate" ∧ t.amount.getD 0 < 1000
            then 10 else 0)) 100
      ∧ (calculate_transaction_risk t now).risk_score ≤ 100
      ∧ ((calculate_transaction_risk t now).risk_level = "HIGH"
          ↔ 70 ≤ (calculate_transaction_risk t now).risk_score)
      ∧ ((calculate_transaction_risk t now).risk_level = "MEDIUM"
          ↔ (40 ≤ (calculate_transaction_risk t now).risk_score
              ∧ (calculate_transaction_risk t now).risk_score < 70))
      ∧ ((calculate_transaction_risk t now).risk_level = "LOW"
          ↔ (calculate_transaction_risk t now).risk_score < 40)
      ∧ (calculate_transaction_risk t now).flags
          = amountFlags (t.amount.getD 0)
            ++ velocityFlags (t.count_24h.getD 0)
            ++ geoFlags (t.country.getD "")
            ++ cashFlags (t.is_cash.getD false)
            ++ corpFlags t.customer_type (t.amount.getD 0)
      ∧ (calculate_transaction_risk iranTx now).risk_score = 90
      ∧ (calculate_transaction_risk iranTx now).risk_level = "HIGH" := by
  refine ⟨?_, ?_, risk_level_high t now, risk_level_medium t now,
    risk_level_low t now, risk_flags_eq t now, ?_, ?_⟩
  · rw [risk_score_eq]
    rfl
  · rw [risk_score_eq]
    exact Nat.min_le_right _ _
  · rw [risk_score_eq]
    have h1 : amountScore ((iranTx.amount).getD 0) = 35 := by decide
    have h2 : velocityScore ((iranTx.count_24h).getD 0) = 15 := by decide
    have h3 : geoScore ((iranTx.country).getD "") = 25 := by decide
    have h4 : cashScore ((iranTx.is_cash).getD false) = 15 := by decide
    have h5 : corpScore iranTx.customer_type ((iranTx.amount).getD 0) = 0 := by
      decide
    rw [h1, h2, h3, h4, h5]
    rfl
  · rw [risk_level_high]
    have h : (calculate_transaction_risk iranTx now).risk_score = 90 := by
      rw [risk_score_eq]; decide
    omega

/-! ## Claim C6 -/

/-- C6 counterexample: the claim says two calls with identical input
yield identical output in every field, but the returned record embeds
the call time: at distinct call times the outputs differ. -/
theorem C6_counterexample :
    calculate_transaction_risk iranTx "2024-01-01T00:00:00"
      ≠ calculate_transaction_risk iranTx "2024-01-01T00:00:01" := by
  intro h
  have h2 := congrArg RiskAssessment.timestamp h
  rw [risk_timestamp, risk_timestamp] at h2
  exact absurd h2 (by decide)

/-- C6 amended: the scorer is pure in its input up to the embedded
timestamp: score, level, flags and recommended action are independent of
the call time, and two outputs are fully equal exactly when the call
times coincide. -/
theorem C6_pure_modulo_timestamp (t : Transaction) (n1 n2 : String) :
    (calculate_transaction_risk t n1).risk_score
        = (calculate_transaction_risk t n2).risk_score
      ∧ (calculate_transaction_risk t n1).risk_level
        = (calculate_transaction_risk t n2).risk_level
      ∧ (calculate_transaction_risk t n1).flags
        = (calculate_transaction_risk t n2).flags
      ∧ (calculate_transaction_risk t n1).recommended_action
        = (calculate_transaction_risk t n2).recommended_action
      ∧ (calculate_transaction_risk t n1 = calculate_transaction_risk t n2
          ↔ n1 = n2) := by
  refine ⟨?_, ?_, ?_, risk_action t n1 n2, ?_⟩
  · rw [risk_score_eq, risk_score_eq]
  · dsimp only [calculate_transaction_risk]
    split_ifs <;> rfl
  · rw [risk_flags_eq, risk_flags_eq]
  · constructor
    · intro h
      have h2 := congrArg RiskAssessment.timestamp h
      rwa [risk_timestamp, risk_timestamp] at h2
    · intro h
      rw [h]

/-! ## Helper lemmas : analyze_query_risk -/

theorem query_score_eq (q : String) :
    (analyze_query_risk q).risk_score
      = min (15 * (HIGH_RISK_KEYWORDS.filter
            (fun kw => kwIn kw (strLower q))).length
          + 8 * (MEDIUM_RISK_KEYWORDS.filter
            (fun kw => kwIn kw (strLower q))).length) 100 := by
  dsimp only [analyze_query_risk]
  split_ifs <;> rfl

theorem query_found_eq (q : String) :
    (analyze_query_risk q).keywords_found
      = HIGH_RISK_KEYWORDS.filter (fun kw => kwIn kw (strLower q))
        ++ MEDIUM_RISK_KEYWORDS.filter (fun kw => kwIn kw (strLower q)) := by
  dsimp only [analyze_query_risk]
  split_ifs <;> rfl

theorem query_alert_iff (q : String) :
    (analyze_query_risk q).requires_alert = true
      ↔ 50 ≤ (analyze_query_risk q).risk_score := by
  dsimp only [analyze_query_risk]
  split_ifs <;> simp_all

theorem query_level_high (q : String) :
    (analyze_query_risk q).risk_level = "HIGH"
      ↔ 50 ≤ (analyze_query_risk q).risk_score := by
  dsimp only [analyze_query_risk]
  split_ifs <;> simp_all

theorem query_level_medium (q : String) :
    (analyze_query_risk q).risk_level = "MEDIUM"
      ↔ (25 ≤ (analyze_query_risk q).risk_score
          ∧ (analyze_query_risk q).risk_score < 50) := by
  dsimp only [analyze_query_risk]
  split_ifs <;> simp_all <;> omega

theorem query_level_low (q : String) :
    (analyze_query_risk q).risk_level = "LOW"
      ↔ (analyze_query_risk q).risk_score < 25 := by
  dsimp only [analyze_query_risk]
  split_ifs <;> simp_all <;> omega

/-! ## Claim C2 -/

/-- C2: `analyze_query_risk` matches keywords as case-insensitive
substrings, adds 15 per high-tier keyword found and 8 per medium-tier
keyword found (once per keyword), clamps the total at 100, raises
`requires_alert` iff the score is at least 50, grades HIGH iff ≥ 50,
MEDIUM iff 25 ≤ score < 50, LOW otherwise, and the scenario query about
terrorist financing scores 15, LOW, with no alert. -/
theorem C2_analyze_query_risk (q : String) :
    (analyze_query_risk q).risk_score
      = min (15 * (HIGH_RISK_KEYWORDS.filter
            (fun kw => kwIn kw (strLower q))).length
          + 8 * (MEDIUM_RISK_KEYWORDS.filter
            (fun kw => kwIn kw (strLower q))).length) 100
      ∧ (analyze_query_risk q).risk_score ≤ 100
      ∧ (analyze_query_risk q).keywords_found
          = HIGH_RISK_KEYWORDS.filter (fun kw => kwIn kw (strLower q))
            ++ MEDIUM_RISK_KEYWORDS.filter (fun kw => kwIn kw (strLower q))
      ∧ ((analyze_query_risk q).requires_alert = true
          ↔ 50 ≤ (analyze_query_risk q).risk_score)
      ∧ ((analyze_query_risk q).risk_level = "HIGH"
          ↔ 50 ≤ (analyze_query_risk q).risk_score)
      ∧ ((analyze_query_risk q).risk_level = "MEDIUM"
          ↔ (25 ≤ (analyze_query_risk q).risk_score
              ∧ (analyze_query_risk q).risk_score < 50))
      ∧ ((analyze_query_risk q).risk_level = "LOW"
          ↔ (analyze_query_risk q).risk_score < 25)
      ∧ analyze_query_risk scenarioQuery
          = ⟨15, "LOW", ["Risk keywords detected: terrorist"],
              ["terrorist"], false⟩ := by
  refine ⟨query_score_eq q, ?_, query_found_eq q, query_alert_iff q,
    query_level_high q, query_level_medium q, query_level_low q, by decide⟩
  rw [query_score_eq]
  exact Nat.min_le_right _ _

/-! ## Helper lemmas : audit log read and write -/

theorem writeAll_some {E : Type} (rs : List E) :
    ∀ (f : List (Line E)),
      writeAll (some f) rs = some (f ++ rs.map Line.valid) := by
  induction rs with
  | nil => intro f; simp [writeAll]
  | cons a as ih =>
    intro f
    show writeAll (write_log (some f) a) as = _
    rw [show write_log (some f) a = some (f ++ [Line.valid a]) from rfl, ih]
    simp

theorem extractValid_map {E : Type} (rs : List E) :
    extractValid (rs.map Line.valid) = rs := by
  induction rs with
  | nil => rfl
  | cons a as ih =>
    simp only [List.map_cons, extractValid, List.filterMap_cons] at ih ⊢
    rw [ih]

theorem filter_matches_none {E : Type} (userOf : E → Option String)
    (l : List E) : l.filter (matchesUser userOf none) = l := by
  induction l with
  | nil => rfl
  | cons a as ih =>
    rw [List.filter_cons]
    simp only [matchesUser, if_pos]
    rw [ih]

theorem read_log_all_valid {E : Type} (userOf : E → Option String)
    (limit : ℕ) (l : List (Line E)) (recs : List E)
    (hl : extractValid l = recs) (hlim : recs.length ≤ limit) :
    read_log (some l) userOf none limit = recs := by
  show (if limit = 0 then _ else _) = recs
  rw [hl, filter_matches_none]
  rcases Nat.eq_zero_or_pos limit with h0 | hpos
  · simp [h0]
  · rw [if_neg (Nat.pos_iff_ne_zero.mp hpos)]
    have h : recs.length - limit = 0 := by omega
    rw [h, List.drop_zero]

theorem read_log_lastN {E : Type} (f : FileState E)
    (userOf : E → Option String) (limit : ℕ) (hpos : limit ≠ 0) :
    read_log f userOf none limit
      = (extractValid (f.getD [])).drop
          ((extractValid (f.getD [])).length - limit) := by
  cases f with
  | none =>
    show ([] : List E) = _
    simp [extractValid]
  | some l =>
    show (if limit = 0 then _ else _) = _
    rw [filter_matches_none, if_neg hpos]
    rfl

/-! ## Claim C3 -/

/-- C3: for every record kind, appending N well-formed records to an
initially missing partition and reading back with limit ≥ N returns
exactly those records in file order; any partition whose well-formed
lines decode to those records (malformed lines interleaved anywhere)
reads back the same; and a missing partition reads as empty. -/
theorem C3_audit_roundtrip (E : Type) (recs : List E) (l : List (Line E))
    (userOf : E → Option String) (limit : ℕ)
    (hl : extractValid l = recs) (hlim : recs.length ≤ limit) :
    read_log (writeAll none recs) userOf none limit = recs
      ∧ read_log (some l) userOf none limit = recs
      ∧ read_log (none : FileState E) userOf none limit = [] := by
  refine ⟨?_, read_log_all_valid userOf limit l recs hl hlim, rfl⟩
  cases recs with
  | nil => rfl
  | cons a as =>
    rw [show writeAll (none : FileState E) (a :: as)
        = writeAll (some [Line.valid a]) as from rfl, writeAll_some]
    exact read_log_all_valid userOf limit _ _
      (extractValid_map (a :: as)) hlim

/-- C3 witness: the round trip at three concrete records with two
malformed lines interleaved and limit 100. -/
theorem C3_audit_roundtrip_witness :
    extractValid [Line.valid 7, Line.malformed, Line.valid 8, Line.malformed,
        Line.valid 9] = [7, 8, 9]
      ∧ ([7, 8, 9] : List ℕ).length ≤ 100
      ∧ read_log (writeAll none [7, 8, 9]) (fun _ => none) none 100 = [7, 8, 9]
      ∧ read_log (some [Line.valid 7, Line.malformed, Line.valid 8,
          Line.malformed, Line.valid 9]) (fun _ => none) none 100 = [7, 8, 9]
      ∧ read_log (none : FileState ℕ) (fun _ => none) none 100 = [] := by
  have h := C3_audit_roundtrip ℕ [7, 8, 9]
    [Line.valid 7, Line.malformed, Line.valid 8, Line.malformed, Line.valid 9]
    (fun _ => none) 100 (by decide) (by decide)
  exact ⟨by decide, by decide, h.1, h.2.1, h.2.2⟩

/-! ## Claim C5 -/

theorem generate_id_congr {x y : List ℕ} (h : idNum x = idNum y) :
    generate_id x = generate_id y := by
  unfold generate_id
  rw [h]

/-- C5 counterexample: the claim asserts that any two appends whose
hashed semantic content differs get distinct 12-hex-character IDs; since
the ID space is finite (2^48 values) and contents are unbounded, this
fails: some two distinct contents hashed with the same timestamp salt
collide. -/
theorem C5_counterexample :
    ¬ (∀ (c1 c2 ts : List ℕ), c1 ≠ c2 →
        generate_id (md5_input c1 ts) ≠ generate_id (md5_input c2 ts)) := by
  intro h
  obtain ⟨m, n, hmn, heq⟩ := Finite.exists_ne_map_eq_of_infinite
    (fun k : ℕ => idNum (md5_input (List.replicate k 0) ts0))
  exact h (List.replicate m 0) (List.replicate n 0) ts0
    (fun hEq => hmn (by simpa using congrArg List.length hEq))
    (generate_id_congr heq)

/-- C5 amended: the IDs are deterministic 12-hex truncations of the MD5
digest of content followed by timestamp salt; what is guaranteed is that
the hashed inputs themselves differ — whenever the contents differ under
equal-length timestamp strings, or the contents agree and the timestamps
differ — so IDs differ except for truncated-MD5 collisions. -/
theorem C5_hash_input_distinct (c1 c2 ts1 ts2 : List ℕ)
    (h : (c1 ≠ c2 ∧ ts1.length = ts2.length) ∨ (c1 = c2 ∧ ts1 ≠ ts2)) :
    md5_input c1 ts1 ≠ md5_input c2 ts2 := by
  rcases h with ⟨hc, hlen⟩ | ⟨hc, hts⟩
  · intro hEq
    have hlen1 : c1.length = c2.length := by
      have := congrArg List.length hEq
      simp only [md5_input, List.length_append] at this
      omega
    exact hc (List.append_inj hEq hlen1).1
  · intro hEq
    subst hc
    exact hts (List.append_cancel_left hEq)

/-- C5 witness: distinct one-byte contents under the same salt give
distinct hash inputs. -/
theorem C5_hash_input_distinct_witness :
    (([1] : List ℕ) ≠ [2] ∧ ([9] : List ℕ).length = ([9] : List ℕ).length)
      ∧ md5_input [1] [9] ≠ md5_input [2] [9] :=
  ⟨⟨by decide, rfl⟩,
    C5_hash_input_distinct [1] [2] [9] [9] (Or.inl ⟨by decide, rfl⟩)⟩

/-! ## Claim C7 -/

/-- C7 counterexample: the claim says the export contains the full
contents of each partition, but `export_audit_trail` reads each
partition through `_read_log` with its default limit of 100: a partition
of 101 well-formed records is exported with only its last 100. -/
theorem C7_counterexample :
    (export_audit_trail bigState none none "t").queries
        ≠ extractValid ((List.range 101).map Line.valid)
      ∧ ((export_audit_trail bigState none none "t").queries).length = 100
      ∧ (extractValid ((List.range 101).map Line.valid)).length = 101 := by
  have h100 : ((export_audit_trail bigState none none "t").queries).length
      = 100 := by
    show (read_log bigFile (fun _ => none) none 100).length = 100
    rw [read_log_lastN _ _ 100 (by decide)]
    rw [show bigFile.getD [] = (List.range 101).map Line.valid from rfl,
      extractValid_map]
    simp
  refine ⟨?_, h100, by rw [extractValid_map]; simp⟩
  intro h
  have hlen := congrArg List.length h
  rw [h100, extractValid_map] at hlen
  simp at hlen

/-- C7 amended: `export_audit_trail` bundles, for each of the four
partitions, the last 100 well-formed records (the `_read_log` default
limit) rather than the full contents; the date parameters are recorded
in the output but never applied as a filter, so the exported record sets
are identical for any dates supplied. -/
theorem C7_export_unfiltered (J : Type) (st : AuditState J)
    (sd ed sd2 ed2 : Option String) (now : String) :
    (export_audit_trail st sd ed now).queries
        = (extractValid (st.query_log.getD [])).drop
            ((extractValid (st.query_log.getD [])).length - 100)
      ∧ (export_audit_trail st sd ed now).access_logs
        = (extractValid (st.access_log.getD [])).drop
            ((extractValid (st.access_log.getD [])).length - 100)
      ∧ (export_audit_trail st sd ed now).alerts
        = (extractValid (st.alert_log.getD [])).drop
            ((extractValid (st.alert_log.getD [])).length - 100)
      ∧ (export_audit_trail st sd ed now).documents
        = (extractValid (st.document_log.getD [])).drop
            ((extractValid (st.document_log.getD [])).length - 100)
      ∧ (export_audit_trail st sd ed now).queries
        = (export_audit_trail st sd2 ed2 now).queries
      ∧ (export_audit_trail st sd ed now).access_logs
        = (export_audit_trail st sd2 ed2 now).access_logs
      ∧ (export_audit_trail st sd ed now).alerts
        = (export_audit_trail st sd2 ed2 now).alerts
      ∧ (export_audit_trail st sd ed now).documents
        = (export_audit_trail st sd2 ed2 now).documents
      ∧ (export_audit_trail st sd ed now).date_range_start = sd
      ∧ (export_audit_trail st sd ed now).date_range_end = ed
      ∧ (export_audit_trail st sd ed now).export_timestamp = now := by
  refine ⟨read_log_lastN _ _ 100 (by decide),
    read_log_lastN _ _ 100 (by decide), read_log_lastN _ _ 100 (by decide),
    read_log_lastN _ _ 100 (by decide), rfl, rfl, rfl, rfl, rfl, rfl, rfl⟩

/-! ## Claim C10 -/

theorem answerPreview_long (a : String) (h : 200 < a.length) :
    answerPreview a = String.mk (a.toList.take 200) ++ "..." := by
  rw [answerPreview, if_pos h]

theorem answerPreview_short (a : String) (h : a.length ≤ 200) :
    answerPreview a = a := by
  rw [answerPreview, if_neg (by omega)]

/-- C10: `log_query` persists only a 200-character preview of the answer
(the first 200 characters followed by dots when longer, the answer
itself otherwise) together with the full length; the stored record is
entirely determined by the first 200 characters and the length of the
answer, so the rest of a long answer is not persisted anywhere in the
record. -/
theorem C10_answer_preview (u q a1 a2 : String) (ss : List Source)
    (conf : ℚ) (rs : ℤ) (md : Option (List (String × String)))
    (now nowSalt : String)
    (hpre : a1.toList.take 200 = a2.toList.take 200)
    (hlen : a1.length = a2.length) :
    (200 < a1.length →
        (log_query u q a1 ss conf rs md now nowSalt).answer_preview
          = String.mk (a1.toList.take 200) ++ "...")
      ∧ (a1.length ≤ 200 →
        (log_query u q a1 ss conf rs md now nowSalt).answer_preview = a1)
      ∧ (log_query u q a1 ss conf rs md now nowSalt).answer_length
          = a1.length
      ∧ log_query u q a1 ss conf rs md now nowSalt
          = log_query u q a2 ss conf rs md now nowSalt := by
  refine ⟨fun h => answerPreview_long a1 h,
    fun h => answerPreview_short a1 h, rfl, ?_⟩
  have hprev : answerPreview a1 = answerPreview a2 := by
    rw [answerPreview, answerPreview, ← hlen]
    split_ifs with h
    · rw [hpre]
    · have h1 : a1.toList = a1.toList.take 200 := by
        rw [List.take_of_length_le]
        rw [show a1.toList.length = a1.length from rfl]
        omega
      have h2 : a2.toList = a2.toList.take 200 := by
        rw [List.take_of_length_le]
        rw [show a2.toList.length = a2.length from rfl]
        omega
      apply String.ext
      show a1.toList = a2.toList
      rw [h1, h2, hpre]
  simp only [log_query, hprev, hlen]

/-- C10 witness: two 201-character answers agreeing on their first 200
characters produce the same record, and the preview of the first is its
200-character prefix followed by dots. -/
theorem C10_answer_preview_witness :
    ((String.mk (List.replicate 200 'a' ++ ['b'])).toList.take 200
        = (String.mk (List.replicate 200 'a' ++ ['c'])).toList.take 200
      ∧ (String.mk (List.replicate 200 'a' ++ ['b'])).length
        = (String.mk (List.replicate 200 'a' ++ ['c'])).length)
      ∧ (200 < (String.mk (List.replicate 200 'a' ++ ['b'])).length →
          (log_query "u" "q" (String.mk (List.replicate 200 'a' ++ ['b']))
              [] 0 0 none "t" "s").answer_preview
            = String.mk ((String.mk
                (List.replicate 200 'a' ++ ['b'])).toList.take 200) ++ "...")
      ∧ log_query "u" "q" (String.mk (List.replicate 200 'a' ++ ['b']))
            [] 0 0 none "t" "s"
          = log_query "u" "q" (String.mk (List.replicate 200 'a' ++ ['c']))
            [] 0 0 none "t" "s" := by
  have h := C10_answer_preview "u" "q"
    (String.mk (List.replicate 200 'a' ++ ['b']))
    (String.mk (List.replicate 200 'a' ++ ['c']))
    [] 0 0 none "t" "s" (by decide) (by decide)
  exact ⟨⟨by decide, by decide⟩, h.1, h.2.2.2⟩

/-! ## Helper lemmas : get_compliance_score -/

theorem comps_sum (covPct : Option (List ℚ)) (avgConf avgRisk : Option ℚ) :
    (score_components covPct avgConf avgRisk).sum
      = claimedOverall covPct avgConf avgRisk := by
  rcases covPct with _ | (_ | ⟨x, xs⟩) <;> rcases avgConf with _ | c <;>
    rcases avgRisk with _ | r <;>
    simp [score_components, claimedOverall] <;> ring

theorem overall_eq (covPct : Option (List ℚ)) (avgConf avgRisk : Option ℚ) :
    (get_compliance_score covPct avgConf avgRisk).overall_score
      = roundTo 1 (score_components covPct avgConf avgRisk).sum := rfl

theorem status_excellent (covPct : Option (List ℚ))
    (avgConf avgRisk : Option ℚ) :
    (get_compliance_score covPct avgConf avgRisk).status = "EXCELLENT"
      ↔ 80 ≤ (score_components covPct avgConf avgRisk).sum := by
  dsimp only [get_compliance_score]
  split_ifs <;> simp_all

theorem status_good (covPct : Option (List ℚ)) (avgConf avgRisk : Option ℚ) :
    (get_compliance_score covPct avgConf avgRisk).status = "GOOD"
      ↔ (60 ≤ (score_components covPct avgConf avgRisk).sum
          ∧ (score_components covPct avgConf avgRisk).sum < 80) := by
  dsimp only [get_compliance_score]
  split_ifs with h1 h2 h3
  · exact iff_of_false (by decide) (fun hh => (not_le.mpr hh.2) h1)
  · exact iff_of_true rfl ⟨h2, not_le.mp h1⟩
  · exact iff_of_false (by decide) (fun hh => h2 hh.1)
  · exact iff_of_false (by decide) (fun hh => h2 hh.1)

theorem status_fair (covPct : Option (List ℚ)) (avgConf avgRisk : Option ℚ) :
    (get_compliance_score covPct avgConf avgRisk).status = "FAIR"
      ↔ (40 ≤ (score_components covPct avgConf avgRisk).sum
          ∧ (score_components covPct avgConf avgRisk).sum < 60) := by
  dsimp only [get_compliance_score]
  split_ifs with h1 h2 h3
  · exact iff_of_false (by decide)
      (fun hh => (not_le.mpr hh.2) (le_trans (by norm_num) h1))
  · exact iff_of_false (by decide) (fun hh => (not_le.mpr hh.2) h2)
  · exact iff_of_true rfl ⟨h3, not_le.mp h2⟩
  · exact iff_of_false (by decide) (fun hh => h3 hh.1)

theorem status_needs (covPct : Option (List ℚ)) (avgConf avgRisk : Option ℚ) :
    (get_compliance_score covPct avgConf avgRisk).status
        = "NEEDS IMPROVEMENT"
      ↔ (score_components covPct avgConf avgRisk).sum < 40 := by
  dsimp only [get_compliance_score]
  split_ifs with h1 h2 h3
  · exact iff_of_false (by decide)
      (fun hh => (not_le.mpr hh) (le_trans (by norm_num) h1))
  · exact iff_of_false (by decide)
      (fun hh => (not_le.mpr hh) (le_trans (by norm_num) h2))
  · exact iff_of_false (by decide) (fun hh => (not_le.mpr hh) h3)
  · exact iff_of_true rfl (not_le.mp h3)

theorem component_fields (covPct : Option (List ℚ))
    (avgConf avgRisk : Option ℚ) :
    (get_compliance_score covPct avgConf avgRisk).document_coverage
        = roundTo 1 ((score_components covPct avgConf avgRisk).getD 0 0)
      ∧ (get_compliance_score covPct avgConf avgRisk).query_confidence
        = roundTo 1 ((score_components covPct avgConf avgRisk).getD 1 0)
      ∧ (get_compliance_score covPct avgConf avgRisk).risk_management
        = roundTo 1 ((score_components covPct avgConf avgRisk).getD 2 0) :=
  ⟨rfl, rfl, rfl⟩

theorem scenario_sum :
    (score_components (some [80, 80, 80, 80, 80]) (some (9 / 10))
      (some 20)).sum = 83 := by
  simp [score_components, avgQ]
  norm_num

/-! ## Claim C4 -/

/-- C4 counterexample: the claim says the returned overall score equals
the exact weighted blend, but the code rounds the sum to one decimal:
with a single coverage chunk in one category and no query statistics the
exact blend is 0.4 × (1/5) = 0.08 while the returned score is 0.1. -/
theorem C4_counterexample :
    (get_compliance_score (some [1, 0, 0, 0, 0]) none none).overall_score
        = 1 / 10
      ∧ claimedOverall (some [1, 0, 0, 0, 0]) none none = 2 / 25
      ∧ (1 / 10 : ℚ) ≠ 2 / 25 := by
  refine ⟨?_, ?_, by norm_num⟩
  · rw [overall_eq, comps_sum]
    have h : claimedOverall (some [1, 0, 0, 0, 0]) none none = 2 / 25 := by
      simp [claimedOverall, avgQ]
      norm_num
    rw [h]
    norm_num [roundTo, roundHE, round_eq]
  · simp [claimedOverall, avgQ]
    norm_num

/-- C4 amended: the computed overall score is exactly the weighted blend
0.4 × average coverage + 0.3 × (confidence × 100) + 0.3 × (100 − risk)
with unavailable components omitted without renormalizing; the returned
`overall_score` is that blend rounded to one decimal; the status bands
(≥ 80 EXCELLENT, ≥ 60 GOOD, ≥ 40 FAIR, else NEEDS IMPROVEMENT) are
evaluated on the unrounded blend; and the scenario with coverage average
80, confidence 0.9 and risk 20 returns 83.0 and EXCELLENT. -/
theorem C4_compliance_score (covPct : Option (List ℚ))
    (avgConf avgRisk : Option ℚ) :
    (score_components covPct avgConf avgRisk).sum
        = claimedOverall covPct avgConf avgRisk
      ∧ (get_compliance_score covPct avgConf avgRisk).overall_score
        = roundTo 1 (claimedOverall covPct avgConf avgRisk)
      ∧ ((get_compliance_score covPct avgConf avgRisk).status = "EXCELLENT"
          ↔ 80 ≤ claimedOverall covPct avgConf avgRisk)
      ∧ ((get_compliance_score covPct avgConf avgRisk).status = "GOOD"
          ↔ (60 ≤ claimedOverall covPct avgConf avgRisk
              ∧ claimedOverall covPct avgConf avgRisk < 80))
      ∧ ((get_compliance_score covPct avgConf avgRisk).status = "FAIR"
          ↔ (40 ≤ claimedOverall covPct avgConf avgRisk
              ∧ claimedOverall covPct avgConf avgRisk < 60))
      ∧ ((get_compliance_score covPct avgConf avgRisk).status
            = "NEEDS IMPROVEMENT"
          ↔ claimedOverall covPct avgConf avgRisk < 40)
      ∧ (get_compliance_score (some [80, 80, 80, 80, 80]) (some (9 / 10))
          (some 20)).overall_score = 83
      ∧ (get_compliance_score (some [80, 80, 80, 80, 80]) (some (9 / 10))
          (some 20)).status = "EXCELLENT" := by
  refine ⟨comps_sum covPct avgConf avgRisk, ?_, ?_, ?_, ?_, ?_, ?_, ?_⟩
  · rw [overall_eq, comps_sum]
  · rw [status_excellent, comps_sum]
  · rw [status_good, comps_sum]
  · rw [status_fair, comps_sum]
  · rw [status_needs, comps_sum]
  · rw [overall_eq, scenario_sum]
    norm_num [roundTo, roundHE, round_eq]
  · rw [status_excellent, scenario_sum]
    norm_num

/-! ## Claim C8 -/

/-- C8 counterexample: the claim says the sub-score named
`query_confidence` is the weighted confidence component in every state,
but the components are assigned positionally: with coverage unavailable,
confidence 0.9 and risk 20, the weighted confidence component is 27 yet
the field named `query_confidence` holds 24 (the risk component), the
confidence component having slid into `document_coverage`. -/
theorem C8_counterexample :
    (get_compliance_score none (some (9 / 10)) (some 20)).document_coverage
        = 27
      ∧ (9 / 10 : ℚ) * 100 * (3 / 10) = 27
      ∧ (get_compliance_score none (some (9 / 10)) (some 20)).query_confidence
        = 24
      ∧ ((100 : ℚ) - 20) * (3 / 10) = 24
      ∧ (get_compliance_score none (some (9 / 10)) (some 20)).risk_management
        = 0
      ∧ (24 : ℚ) ≠ 27 := by
  have h := component_fields none (some (9 / 10)) (some 20)
  have hc : score_components none (some (9 / 10)) (some 20)
      = [27, 24] := by
    simp [score_components]
    norm_num
  refine ⟨?_, by norm_num, ?_, by norm_num, ?_, by norm_num⟩
  · rw [h.1, hc]
    norm_num [roundTo, roundHE, round_eq]
  · rw [h.2.1, hc]
    norm_num [roundTo, roundHE, round_eq]
  · rw [h.2.2, hc]
    norm_num [roundTo, roundHE, round_eq]

/-- C8 amended: the three reported sub-scores are the first, second and
third entries of the positional component list (0 when absent), each
rounded to one decimal; the unrounded positional entries always sum to
the unrounded overall score; and only when all three components are
available do the names match their components, `document_coverage` the
weighted coverage, `query_confidence` the weighted confidence and
`risk_management` the weighted inverse risk. -/
theorem C8_component_breakdown (covPct : Option (List ℚ))
    (avgConf avgRisk : Option ℚ) (x c r : ℚ) (xs : List ℚ) :
    (get_compliance_score covPct avgConf avgRisk).document_coverage
        = roundTo 1 ((score_components covPct avgConf avgRisk).getD 0 0)
      ∧ (get_compliance_score covPct avgConf avgRisk).query_confidence
        = roundTo 1 ((score_components covPct avgConf avgRisk).getD 1 0)
      ∧ (get_compliance_score covPct avgConf avgRisk).risk_management
        = roundTo 1 ((score_components covPct avgConf avgRisk).getD 2 0)
      ∧ (score_components covPct avgConf avgRisk).getD 0 0
          + (score_components covPct avgConf avgRisk).getD 1 0
          + (score_components covPct avgConf avgRisk).getD 2 0
        = (score_components covPct avgConf avgRisk).sum
      ∧ (get_compliance_score covPct avgConf avgRisk).overall_score
        = roundTo 1 (score_components covPct avgConf avgRisk).sum
      ∧ score_components (some (x :: xs)) (some c) (some r)
        = [avgQ (x :: xs) * (4 / 10), c * 100 * (3 / 10),
            (100 - r) * (3 / 10)]
      ∧ (get_compliance_score (some (x :: xs)) (some c)
          (some r)).document_coverage
        = roundTo 1 (avgQ (x :: xs) * (4 / 10))
      ∧ (get_compliance_score (some (x :: xs)) (some c)
          (some r)).query_confidence
        = roundTo 1 (c * 100 * (3 / 10))
      ∧ (get_compliance_score (some (x :: xs)) (some c)
          (some r)).risk_management
        = roundTo 1 ((100 - r) * (3 / 10)) := by
  have hfull : score_components (some (x :: xs)) (some c) (some r)
      = [avgQ (x :: xs) * (4 / 10), c * 100 * (3 / 10),
          (100 - r) * (3 / 10)] := by
    simp [score_components]
  have hf := component_fields covPct avgConf avgRisk
  have hf2 := component_fields (some (x :: xs)) (some c) (some r)
  refine ⟨hf.1, hf.2.1, hf.2.2, ?_,
    overall_eq covPct avgConf avgRisk, hfull, ?_, ?_, ?_⟩
  · rcases covPct with _ | (_ | ⟨y, ys⟩) <;> rcases avgConf with _ | cc <;>
      rcases avgRisk with _ | rr <;>
      simp [score_components] <;> ring
  · rw [hf2.1, hfull]
    rfl
  · rw [hf2.2.1, hfull]
    rfl
  · rw [hf2.2.2, hfull]
    rfl

/-! ## Helper lemmas : percentiles -/

theorem oneToHundred_pairwise :
    oneToHundred.Pairwise (fun a b => decide (a ≤ b) = true) := by
  rw [oneToHundred, List.pairwise_map]
  apply List.Pairwise.imp ?_ (List.pairwise_lt_range 100)
  intro a b hab
  simp only [decide_eq_true_eq]
  exact_mod_cast Nat.succ_le_succ (Nat.le_of_lt hab)

theorem sortedWindow_oneToHundred :
    sortedWindow oneToHundred = oneToHundred :=
  List.mergeSort_of_sorted oneToHundred_pairwise

theorem oneToHundred_length : oneToHundred.length = 100 := by
  simp [oneToHundred]

theorem oneToHundred_getElem (i : ℕ) (h : i < 100) :
    oneToHundred[i]? = some ((i + 1 : ℕ) : ℚ) := by
  rw [oneToHundred, List.getElem?_map, List.getElem?_range h]
  rfl

theorem p95_scenario : query_time_p95 oneToHundred = 96 := by
  rw [query_time_p95, percentile]
  rw [if_neg (by simp [oneToHundred])]
  rw [sortedWindow_oneToHundred, oneToHundred_length]
  norm_num
  rw [oneToHundred_getElem 95 (by norm_num)]
  norm_num [roundTo, roundHE, round_eq]

theorem p99_scenario : query_time_p99 oneToHundred = 100 := by
  rw [query_time_p99, percentile]
  rw [if_neg (by simp [oneToHundred])]
  rw [sortedWindow_oneToHundred, oneToHundred_length]
  norm_num
  rw [oneToHundred_getElem 99 (by norm_num)]
  norm_num [roundTo, roundHE, round_eq]

/-! ## Claim C9 -/

/-- C9: for every non-empty duration window the reported 95th and 99th
percentiles are the nearest-rank values of the ascending sort — the
sorted window is a sorted permutation of the data and the reported value
is the entry at index min(floor(p × count / 100), count − 1), rounded to
three decimals as `get_metrics` reports it; on the window 1..100 the
95th percentile is 96 and the 99th is 100. -/
theorem C9_percentile_nearest_rank (data : List ℚ) (h : data ≠ []) :
    (sortedWindow data).Perm data
      ∧ (sortedWindow data).Pairwise (· ≤ ·)
      ∧ query_time_p95 data
        = roundTo 3 ((sortedWindow data).getD
            (min (95 * data.length / 100) (data.length - 1)) 0)
      ∧ query_time_p99 data
        = roundTo 3 ((sortedWindow data).getD
            (min (99 * data.length / 100) (data.length - 1)) 0)
      ∧ query_time_p95 oneToHundred = 96
      ∧ query_time_p99 oneToHundred = 100 := by
  have hne : ¬ data.isEmpty := by
    cases data with
    | nil => exact absurd rfl h
    | cons a as => simp
  refine ⟨List.mergeSort_perm data _, ?_, ?_, ?_, p95_scenario, p99_scenario⟩
  · apply List.Pairwise.imp ?_
      (@List.sorted_mergeSort ℚ (fun a b => decide (a ≤ b)) ?_ ?_ data)
    · intro a b hab
      exact of_decide_eq_true hab
    · intro a b c hab hbc
      simp only [decide_eq_true_eq] at hab hbc ⊢
      exact le_trans hab hbc
    · intro a b
      simp only [Bool.or_eq_true, decide_eq_true_eq]
      exact le_total a b
  · rw [query_time_p95, percentile, if_neg hne]
  · rw [query_time_p99, percentile, if_neg hne]

/-- C9 witness: the theorem applied to the non-empty window 1..100. -/
theorem C9_percentile_nearest_rank_witness :
    oneToHundred ≠ ([] : List ℚ)
      ∧ query_time_p95 oneToHundred = 96
      ∧ query_time_p99 oneToHundred = 100 :=
  ⟨by simp [oneToHundred],
    (C9_percentile_nearest_rank oneToHundred
      (by simp [oneToHundred])).2.2.2.2.1,
    (C9_percentile_nearest_rank oneToHundred
      (by simp [oneToHundred])).2.2.2.2.2⟩

end KycAml
